import Mathlib

/-!
Shallow embedding of the `libmediacodec` wrapper library.

The repository is a set of thin C++ wrappers around FFmpeg codec APIs.
Each definition below is transcribed from the corresponding C++ source
file under `src/`; calls into the wrapped native library (libavcodec,
libswresample, libswscale) are modelled as deterministic oracles passed
in explicitly, since the wrappers treat them as black boxes.

Bytes are modelled as `Nat` (their numeric value is only ever compared
or copied by the wrapper code), buffer contents as `List Nat`, C `int`
fields as `Int`, `float` fields as `Rat`, and C++ strings as `String`.
-/

namespace Media

/-! ## Data model (`media_video_encoder.h`) -/

/-- `enum class PixelFormat` from `media_video_encoder.h`. -/
inductive PixelFormat
  | yuv420
  | nv12
  deriving DecidableEq

/-- `enum class CodecType` from `media_video_encoder.h`. -/
inductive CodecType
  | h264
  | hevc
  | vp8
  | vp9
  | av1
  deriving DecidableEq

/-- `codec::H264Params` from `media_video_encoder.h` (defaults as in the header). -/
structure H264Params where
  preset : String := "medium"
  profile : String := "high"
  level : String := "4.1"
  keyframe_interval : Int := 120
  max_b_frames : Int := 2
  constant_bitrate : Bool := false
  crf : Int := 23
  threads : Int := 0
  deriving DecidableEq

/-- `codec::HEVCParams` from `media_video_encoder.h`. -/
structure HEVCParams where
  preset : String := "medium"
  profile : String := "main"
  level : String := "4.1"
  keyframe_interval : Int := 120
  crf : Int := 28
  constant_bitrate : Bool := false
  max_b_frames : Int := 4
  threads : Int := 0
  deriving DecidableEq

/-- `codec::VP8Params` from `media_video_encoder.h`. -/
structure VP8Params where
  quality : Int := 10
  keyframe_interval : Int := 120
  constant_bitrate : Bool := false
  threads : Int := 0
  deriving DecidableEq

/-- `codec::VP9Params` from `media_video_encoder.h`. -/
structure VP9Params where
  quality : Int := 23
  speed : String := "good"
  profile : String := "0"
  keyframe_interval : Int := 120
  constant_bitrate : Bool := false
  threads : Int := 0
  tile_columns : Int := 0
  tile_rows : Int := 0
  deriving DecidableEq

/-- `codec::AV1Params` from `media_video_encoder.h`. -/
structure AV1Params where
  speed : Int := 4
  profile : String := "main"
  keyframe_interval : Int := 120
  constant_bitrate : Bool := false
  crf : Int := 30
  threads : Int := 0
  tile_columns : Int := 0
  tile_rows : Int := 0
  deriving DecidableEq

/-- The dynamic type of the `codec_params` pointer: in the C++ code
`codec_params` is a `std::unique_ptr<codec::BaseCodecParams>` holding one of
the five concrete parameter structs; the wrappers discriminate on it with
`typeid`.  A null pointer is modelled as `Option.none` around this sum. -/
inductive CodecParams
  | h264 (p : H264Params)
  | hevc (p : HEVCParams)
  | vp8 (p : VP8Params)
  | vp9 (p : VP9Params)
  | av1 (p : AV1Params)
  deriving DecidableEq

/-- `struct VideoEncoderConfig` from `media_video_encoder.h`. -/
structure VideoEncoderConfig where
  gpu_acceleration : Bool := false
  input_format : PixelFormat := .yuv420
  output_codec : CodecType := .h264
  width : Int := 1920
  height : Int := 1080
  bitrate : Int := 5000000
  framerate : Int := 30
  codec_params : Option CodecParams := none
  deriving DecidableEq

/-! ## Dispatch facade (`media_video_encoder.cc`, `VideoEncoder::Create`) -/

/-- The concrete wrapper classes `VideoEncoder::Create` can instantiate
(the anonymous-namespace `*EncoderImpl` helper classes in
`media_video_encoder.cc`). -/
inductive WrapperKind
  | softH264
  | softHEVC
  | softVP8
  | softVP9
  | softAV1
  | nvidiaH264
  | nvidiaHEVC
  | nvidiaAV1
  deriving DecidableEq

/-- The software-encoder `switch` at the bottom of `VideoEncoder::Create`
(`media_video_encoder.cc:504-519`).  All five `CodecType` values are
handled by a named case, so the `default: return nullptr` branch is
unreachable for well-typed enum values. -/
def softwareDispatch : CodecType → WrapperKind
  | .h264 => .softH264
  | .hevc => .softHEVC
  | .vp8 => .softVP8
  | .vp9 => .softVP9
  | .av1 => .softAV1

/-- `VideoEncoder::Create` (`media_video_encoder.cc:477-519`): reads only
`config.output_codec` and `config.gpu_acceleration`; with GPU requested,
H264/HEVC/AV1 go to the NVIDIA impl classes and the `default:` branch of the
GPU `switch` falls through to the software `switch`. -/
def videoEncoderDispatch (config : VideoEncoderConfig) : WrapperKind :=
  let codec := config.output_codec
  let use_gpu := config.gpu_acceleration
  if use_gpu then
    match codec with
    | .h264 => .nvidiaH264
    | .hevc => .nvidiaHEVC
    | .av1 => .nvidiaAV1
    | c => softwareDispatch c
  else
    softwareDispatch codec

/-! ## Software H.264 configuration marshaling
(`media_video_encoder.cc`, `H264EncoderImpl::H264EncoderImpl`) -/

/-- `struct H264EncoderConfig` from `h264_encoder.h`, with the defaults
given there (float fields carried as exact rationals). -/
structure H264EncoderConfig where
  width : Int := 1920
  height : Int := 1080
  bitrate : Int := 5000000
  framerate : Int := 30
  preset : String := "medium"
  profile : String := "high"
  level : String := "4.1"
  tune : String := ""
  gop_size : Int := 30
  max_b_frames : Int := 2
  refs : Int := 3
  open_gop : Bool := false
  keyint_min : Int := 25
  scenecut_threshold : Int := 40
  repeat_headers : Bool := false
  constant_bitrate : Bool := false
  crf : Int := 23
  qp : Int := -1
  rc_lookahead : Int := 40
  vbv_maxrate : Int := 0
  vbv_bufsize : Int := 0
  vbv_init : Rat := 9/10
  bitrate_variance : Rat := 0
  qp_variance : Rat := 0
  qp_min : Int := 0
  qp_max : Int := 51
  qp_step : Int := 4
  me_method : String := "hex"
  me_range : Int := 16
  subpixel_me : Int := 7
  me_skip_threshold : Int := 0
  psy_rd : Bool := true
  psy_rd_strength : Rat := 1
  fast_pskip : Bool := true
  mixed_refs : Bool := true
  cabac : Bool := true
  dct8x8 : Bool := true
  aq_mode : Bool := true
  aq_strength : Rat := 1
  deblock : Bool := true
  deblock_alpha : Int := 0
  deblock_beta : Int := 0
  slices : Int := 0
  slice_max_size : Int := 0
  threads : Int := 0
  add_sei : Bool := true
  add_aud : Bool := false
  annexb : Bool := true
  intra_refresh : Int := 0
  keyint_sec : Int := 0
  trellis : Int := 1
  nr_strength : Int := 0
  force_cfr : Bool := false
  bluray_compat : Bool := false


/-- The `H264EncoderConfig` built by the `H264EncoderImpl` constructor
(`media_video_encoder.cc:52-72`) before it is handed to
`H264Encoder::Create`: `h264_config_` starts default-constructed, the four
basic fields are always copied from the facade config, and the eight
advanced fields are copied from `codec::H264Params` only when
`codec_params` is non-null and its dynamic type is exactly
`codec::H264Params`. -/
def mkH264EncoderConfig (config : VideoEncoderConfig) : H264EncoderConfig :=
  let base : H264EncoderConfig :=
    { width := config.width
      height := config.height
      bitrate := config.bitrate
      framerate := config.framerate }
  match config.codec_params with
  | some (.h264 advanced) =>
      { base with
        preset := advanced.preset
        profile := advanced.profile
        level := advanced.level
        gop_size := advanced.keyframe_interval
        max_b_frames := advanced.max_b_frames
        constant_bitrate := advanced.constant_bitrate
        crf := advanced.crf
        threads := advanced.threads }
  | _ => base

/-! ## Software H.264 encoder (`h264_encoder.cc`, `H264EncoderInstance`) -/

/-- How one `avcodec_receive_packet` loop ended: `AVERROR(EAGAIN)`,
`AVERROR_EOF`, or some other negative return value. -/
inductive RecvEnd
  | again
  | eof
  | error (code : Int)
  deriving DecidableEq

/-- The wrapped library's responses during one encoder call, treated as an
oracle: the result of `Initialize()` when invoked, the return value of
`av_frame_make_writable`, the return value of `avcodec_send_frame`, the
packets `avcodec_receive_packet` produced for this call (in order), and how
the receive loop ended. -/
structure H264CallEnv where
  initOk : Bool
  writableRet : Int
  sendRet : Int
  packets : List (List Nat)
  recvEnd : RecvEnd

/-- Mutable state of `H264EncoderInstance` visible to these claims. -/
structure H264EncoderState where
  config : H264EncoderConfig
  initialized : Bool
  frame_count : Int

/-- Result of an encode/flush call: the returned `bool`, the updated
encoder state, the contents of `*output_frame` after the call, and whether
`avcodec_send_frame` was reached. -/
structure EncodeResult where
  ok : Bool
  state : H264EncoderState
  output : List Nat
  sentFrame : Bool

/-- `H264EncoderInstance::EncodeFrame` (`h264_encoder.cc:326-358`): on a
failed `avcodec_send_frame` it returns `false` leaving the output vector
untouched; otherwise it clears the output vector, appends each received
packet's bytes in order, and returns `true` when the receive loop ended
with `EAGAIN`/`EOF` and `false` on any other receive error. -/
def h264EncodeFrame (env : H264CallEnv) (prevOutput : List Nat) :
    Bool × List Nat :=
  if env.sendRet < 0 then
    (false, prevOutput)
  else
    let out := env.packets.foldl (· ++ ·) []
    match env.recvEnd with
    | .again => (true, out)
    | .eof => (true, out)
    | .error _ => (false, out)

/-- `expected_size = config_.width * config_.height * 3 / 2`
(`h264_encoder.cc:267`, C `int` arithmetic then converted to `size_t`). -/
def expectedYUVSize (config : H264EncoderConfig) : Nat :=
  ((config.width * config.height * 3).tdiv 2).toNat

/-- The part of `H264EncoderInstance::EncodeYUV420` after the lazy
initialization check (`h264_encoder.cc:261-303`): rejects a null output
pointer, rejects input whose size is not `width*height*3/2`, rejects a
failed `av_frame_make_writable`, otherwise copies the three planes, stamps
`pts = frame_count_++` and delegates to `EncodeFrame`.  `outputGiven`
models whether the `output_frame` pointer is non-null. -/
def h264EncodeBody (env : H264CallEnv) (st : H264EncoderState)
    (yuv_data : List Nat) (outputGiven : Bool) (prevOutput : List Nat) :
    EncodeResult :=
  if ¬ outputGiven then
    ⟨false, st, prevOutput, false⟩
  else if yuv_data.length ≠ expectedYUVSize st.config then
    ⟨false, st, prevOutput, false⟩
  else if env.writableRet < 0 then
    ⟨false, st, prevOutput, false⟩
  else
    ⟨(h264EncodeFrame env prevOutput).1,
     { st with frame_count := st.frame_count + 1 },
     (h264EncodeFrame env prevOutput).2, true⟩

/-- `H264EncoderInstance::EncodeYUV420` (`h264_encoder.cc:255-303`):
`if (!initialized_ && !Initialize()) return false;` then the body.  A
successful `Initialize()` resets `frame_count_` to 0; a failed one leaves
the encoder uninitialized. -/
def h264EncodeYUV420 (env : H264CallEnv) (st : H264EncoderState)
    (yuv_data : List Nat) (outputGiven : Bool) (prevOutput : List Nat) :
    EncodeResult :=
  if st.initialized then
    h264EncodeBody env st yuv_data outputGiven prevOutput
  else if env.initOk then
    h264EncodeBody env { st with initialized := true, frame_count := 0 }
      yuv_data outputGiven prevOutput
  else
    ⟨false, { st with initialized := false }, prevOutput, false⟩

/-- `H264EncoderInstance::Flush` (`h264_encoder.cc:305-311`): fails when
not initialized, otherwise sends the null frame through `EncodeFrame`. -/
def h264Flush (env : H264CallEnv) (st : H264EncoderState)
    (prevOutput : List Nat) : EncodeResult :=
  if ¬ st.initialized then
    ⟨false, st, prevOutput, false⟩
  else
    let r := h264EncodeFrame env prevOutput
    ⟨r.1, st, r.2, true⟩

/-! ## NVIDIA HEVC encoder (`accelerated/nvidia_hevc_encoder.cc`) -/

/-- The pixel formats `NvidiaHEVCEncoder::EncodeFrame` distinguishes on
`codec_context_->pix_fmt` (`Initialize` always sets `AV_PIX_FMT_NV12`, but
the encode path re-checks it). -/
inductive NvPixFmt
  | nv12
  | yuv420p
  deriving DecidableEq

/-- Mutable state of `NvidiaHEVCEncoder` relevant to these claims
(`nvidia_hevc_encoder.h`): `y_plane_size_ = width*height` and
`frame_size_ = width*height*3/2` are fixed by the constructor. -/
structure NvidiaHEVCEncoderState where
  width : Int
  height : Int
  y_plane_size : Int
  frame_size : Int
  pts : Int
  initialized : Bool
  pixFmt : NvPixFmt

/-- The chroma-interleaving loop of `NvidiaHEVCEncoder::EncodeFrame`
(`nvidia_hevc_encoder.cc:186-189`): `uv[2i] = u[i]; uv[2i+1] = v[i]`. -/
def interleaveUV : List Nat → List Nat → List Nat
  | u :: us, v :: vs => u :: v :: interleaveUV us vs
  | _, _ => []

/-- The planes of the `AVFrame` handed to `avcodec_send_frame`, plus its
pts. -/
structure SubmittedFrame where
  plane0 : List Nat
  plane1 : List Nat
  plane2 : List Nat
  pts : Int

/-- The frame-copy section of `NvidiaHEVCEncoder::EncodeFrame`
(`nvidia_hevc_encoder.cc:170-199`): NV12 input is copied as Y plane plus
interleaved UV plane; planar YUV420 input is converted to NV12 by the
interleaving loop when the codec context's pixel format is NV12, and
copied plane-by-plane otherwise. -/
def nvidiaHEVCFillFrame (st : NvidiaHEVCEncoderState)
    (frame_data : List Nat) (is_nv12 : Bool) : SubmittedFrame :=
  let ySize := st.y_plane_size.toNat
  if is_nv12 then
    { plane0 := frame_data.take ySize
      plane1 := (frame_data.drop ySize).take (ySize / 2)
      plane2 := []
      pts := st.pts }
  else if st.pixFmt = .nv12 then
    { plane0 := frame_data.take ySize
      plane1 := interleaveUV ((frame_data.drop ySize).take (ySize / 4))
          ((frame_data.drop (ySize + ySize / 4)).take (ySize / 4))
      plane2 := []
      pts := st.pts }
  else
    { plane0 := frame_data.take ySize
      plane1 := (frame_data.drop ySize).take (ySize / 4)
      plane2 := (frame_data.drop (ySize + ySize / 4)).take (ySize / 4)
      pts := st.pts }

/-- The library's responses during one NVIDIA HEVC encode call: the single
`avcodec_receive_packet` either signals `EAGAIN`/`EOF` (still a success),
fails, or yields one packet. -/
inductive NvRecv
  | again
  | eof
  | error (code : Int)
  | packet (data : List Nat)
  deriving DecidableEq

/-- Oracle for one NVIDIA HEVC encode call. -/
structure NvCallEnv where
  writableRet : Int
  sendRet : Int
  recv : NvRecv

/-- Result of `NvidiaHEVCEncoder::EncodeFrame`/`EncodeYUV420`:
`submitted` is the frame passed to `avcodec_send_frame`, if that point was
reached. -/
structure NvEncodeResult where
  ok : Bool
  state : NvidiaHEVCEncoderState
  output : List Nat
  submitted : Option SubmittedFrame

/-- `NvidiaHEVCEncoder::EncodeFrame` (`nvidia_hevc_encoder.cc:157-228`):
clears the output, fills the frame, stamps `pts_++`, sends it, and copies
at most one received packet to the output. -/
def nvidiaHEVCEncodeFrame (env : NvCallEnv) (st : NvidiaHEVCEncoderState)
    (frame_data : List Nat) (is_nv12 : Bool) : NvEncodeResult :=
  if env.writableRet < 0 then
    ⟨false, st, [], none⟩
  else if env.sendRet < 0 then
    ⟨false, { st with pts := st.pts + 1 }, [],
     some (nvidiaHEVCFillFrame st frame_data is_nv12)⟩
  else
    match env.recv with
    | .again => ⟨true, { st with pts := st.pts + 1 }, [],
        some (nvidiaHEVCFillFrame st frame_data is_nv12)⟩
    | .eof => ⟨true, { st with pts := st.pts + 1 }, [],
        some (nvidiaHEVCFillFrame st frame_data is_nv12)⟩
    | .error _ => ⟨false, { st with pts := st.pts + 1 }, [],
        some (nvidiaHEVCFillFrame st frame_data is_nv12)⟩
    | .packet data => ⟨true, { st with pts := st.pts + 1 }, data,
        some (nvidiaHEVCFillFrame st frame_data is_nv12)⟩

/-- `NvidiaHEVCEncoder::EncodeYUV420` (`nvidia_hevc_encoder.cc:139-146`):
requires initialization and `yuv_data.size() >= frame_size_`, then
delegates to `EncodeFrame` with `is_nv12 = false`. -/
def nvidiaHEVCEncodeYUV420 (env : NvCallEnv)
    (st : NvidiaHEVCEncoderState) (yuv_data : List Nat) : NvEncodeResult :=
  if ¬ st.initialized ∨ yuv_data.length < st.frame_size.toNat then
    ⟨false, st, [], none⟩
  else
    nvidiaHEVCEncodeFrame env st yuv_data false

/-! ## Opus encoder resampler (`opus_encoder.cc`,
`OPUSEncoderImpl::InitializeResampler`) -/

/-- The `AVSampleFormat` values the Opus encoder handles: the
`AV_SAMPLE_FMT_NONE` sentinel that `last_input_format_` starts at, the
packed input formats of the three `EncodePCM_*` entry points, and the
encoder's own `AV_SAMPLE_FMT_FLT`. -/
inductive AVSampleFormat
  | fmtNone
  | u8
  | s16
  | flt
  deriving DecidableEq

/-- `struct OPUSEncoderConfig` from `opus_encoder.h` (enum-typed fields
carried as their underlying C integer values). -/
structure OPUSEncoderConfig where
  sample_rate : Int := 48000
  channels : Int := 2
  bitrate : Int := 96000
  application : Int := 2049
  frame_duration_ms : Int := 20
  complexity : Int := 10
  use_inband_fec : Bool := false
  use_dtx : Bool := false
  bandwidth : Int := 1105
  use_vbr : Bool := true
  use_cvbr : Bool := true
  packet_loss_percentage : Int := 0
  signal_type : Int := -1000
  max_frame_size_ms : Int := 120
  min_frame_size_ms : Int := 2
  lsb_depth : Int := 16
  prediction_disabled : Int := -1000
  deriving DecidableEq

/-- The parameters a `SwrContext` is configured with in
`InitializeResampler` (`opus_encoder.cc:316-338`).  A channel layout
produced by `av_channel_layout_default(&l, n)` is represented by the
channel count `n` it is derived from. -/
structure SwrParams where
  in_ch_layout_channels : Int
  out_ch_layout_channels : Int
  in_sample_rate : Int
  out_sample_rate : Int
  in_sample_fmt : AVSampleFormat
  out_sample_fmt : AVSampleFormat
  deriving DecidableEq

/-- Resampler-related state of `OPUSEncoderImpl`: the (possibly null)
`swr_ctx_` with the parameters it was initialized with, and
`last_input_format_`. -/
structure OpusEncState where
  config : OPUSEncoderConfig
  swr_ctx : Option SwrParams
  last_input_format : AVSampleFormat

/-- Library oracle for `InitializeResampler`: whether `swr_alloc`
succeeds, and the result of `swr_init` as a deterministic function of the
parameters the context was configured with. -/
structure SwrEnv where
  allocOk : Bool
  initOk : SwrParams → Bool

/-- The parameters `InitializeResampler` sets on a fresh context
(`opus_encoder.cc:316-338`): both channel layouts default-derived from
`config_.channels`, both sample rates `config_.sample_rate`, input format
as requested, output format the codec context's `AV_SAMPLE_FMT_FLT`. -/
def opusSwrParams (config : OPUSEncoderConfig)
    (input_format : AVSampleFormat) : SwrParams :=
  { in_ch_layout_channels := config.channels
    out_ch_layout_channels := config.channels
    in_sample_rate := config.sample_rate
    out_sample_rate := config.sample_rate
    in_sample_fmt := input_format
    out_sample_fmt := .flt }

/-- `OPUSEncoderImpl::InitializeResampler` (`opus_encoder.cc:297-353`):
reuses the existing context when one exists and `last_input_format_`
matches; otherwise frees any existing context, allocates and configures a
new one, and on `swr_init` failure frees it, leaving `swr_ctx_` null and
`last_input_format_` unchanged. -/
def initializeResampler (env : SwrEnv) (st : OpusEncState)
    (input_format : AVSampleFormat) : Bool × OpusEncState :=
  if st.swr_ctx.isSome ∧ st.last_input_format = input_format then
    (true, st)
  else if ¬ env.allocOk then
    (false, { st with swr_ctx := none })
  else if env.initOk (opusSwrParams st.config input_format) then
    (true, { st with
      swr_ctx := some (opusSwrParams st.config input_format)
      last_input_format := input_format })
  else
    (false, { st with swr_ctx := none })

/-! ## Image utilities (`media_image_utils.cc`, `ImageUtils`) -/

/-- `enum class ImageFormat` from `image_utils.h`. -/
inductive ImageFormat
  | unknown
  | rgb
  | rgba
  | bgra
  | nv12
  | yuv420p
  deriving DecidableEq

/-- The FFmpeg pixel formats the conversion path maps to. -/
inductive AVPixelFormat
  | rgb24
  | rgba
  | bgra
  | nv12
  | yuv420p
  deriving DecidableEq

/-- The chroma heuristic of `DetectFormat` (`media_image_utils.cc:79-91`):
when at least 17 bytes of chroma exist, the data counts as interleaved
(NV12) when each of the first 8 chroma byte pairs differs by at most 50;
otherwise it defaults to interleaved. -/
def chromaInterleaved (data : List Nat) (width height : Int) : Bool :=
  let luma := (width * height).toNat
  if luma + 16 < data.length then
    (List.range 8).all fun i =>
      decide (((data.getD (luma + 2 * i) 0 : Int) -
        (data.getD (luma + 2 * i + 1) 0 : Int)).natAbs ≤ 50)
  else
    true

/-- `ImageUtils::DetectFormat` (`media_image_utils.cc:40-96`): empty data
is unknown; a PNG signature means RGBA and a JPEG signature means RGB;
otherwise, with positive dimensions, the format is inferred from the data
size, using `chromaInterleaved` to split NV12 from YUV420P. -/
def detectFormat (data : List Nat) (width height : Int) : ImageFormat :=
  if data = [] then .unknown
  else if 8 ≤ data.length ∧ data.getD 0 0 = 0x89 ∧ data.getD 1 0 = 0x50 ∧
      data.getD 2 0 = 0x4E ∧ data.getD 3 0 = 0x47 then .rgba
  else if 8 ≤ data.length ∧ data.getD 0 0 = 0xFF ∧ data.getD 1 0 = 0xD8
    then .rgb
  else if 0 < width ∧ 0 < height then
    if (data.length : Int) = width * height * 3 then .rgb
    else if (data.length : Int) = width * height * 4 then .rgba
    else if (data.length : Int) = width * height * 3 / 2 then
      if chromaInterleaved data width height then .nv12 else .yuv420p
    else .unknown
  else .unknown

/-- `ImageUtils::DetectDimensions` (`media_image_utils.cc:98-129`): with
positive provided dimensions, validates the data size against the format;
otherwise returns false. -/
def detectDimensions (data : List Nat) (format : ImageFormat)
    (width height : Int) : Bool :=
  if 0 < width ∧ 0 < height then
    match format with
    | .rgb => decide (width * height * 3 ≤ (data.length : Int))
    | .rgba => decide (width * height * 4 ≤ (data.length : Int))
    | .bgra => decide (width * height * 4 ≤ (data.length : Int))
    | .nv12 => decide (width * height * 3 / 2 ≤ (data.length : Int))
    | .yuv420p => decide (width * height * 3 / 2 ≤ (data.length : Int))
    | .unknown => false
  else
    false

/-- The source-format `switch` of `ConvertFormat`
(`media_image_utils.cc:158-177`); `none` models the `default: return
false` branch. -/
def srcPixFmt : ImageFormat → Option AVPixelFormat
  | .rgb => some .rgb24
  | .rgba => some .rgba
  | .bgra => some .bgra
  | .nv12 => some .nv12
  | .yuv420p => some .yuv420p
  | .unknown => none

/-- The target-format `switch` of `ConvertFormat`
(`media_image_utils.cc:179-189`): only NV12 and YUV420P are supported
targets. -/
def dstPixFmt : ImageFormat → Option AVPixelFormat
  | .nv12 => some .nv12
  | .yuv420p => some .yuv420p
  | _ => none

/-- The parameters `sws_getCachedContext` is asked for
(`media_image_utils.cc:198-202`); `SWS_BILINEAR` and the null filter
arguments are fixed at every call site so they are omitted. -/
structure SwsParams where
  srcW : Int
  srcH : Int
  srcFmt : AVPixelFormat
  dstW : Int
  dstH : Int
  dstFmt : AVPixelFormat
  deriving DecidableEq

/-- The bytes copied into the source `AVFrame`'s planes
(`media_image_utils.cc:253-280`): packed formats use one contiguous plane;
NV12 splits at the luma boundary; YUV420P splits into Y, U and V. -/
def srcPlanes (input : List Nat) (width height : Int)
    (fmt : AVPixelFormat) : List (List Nat) :=
  match fmt with
  | .rgb24 => [input]
  | .rgba => [input]
  | .bgra => [input]
  | .nv12 =>
      [input.take ((width * height).toNat),
       input.drop ((width * height).toNat)]
  | .yuv420p =>
      [input.take ((width * height).toNat),
       (input.drop ((width * height).toNat)).take
         ((width * height).toNat / 4),
       input.drop ((width * height).toNat + (width * height).toNat / 4)]

/-- Library oracle for `ConvertFormat`: every wrapped call's result is a
deterministic function of its visible arguments.  In particular
`sws_getCachedContext` yields a context configured with exactly the
requested parameters whether or not it can reuse the previous one, so its
success and the scaling results depend only on those parameters. -/
structure SwsEnv where
  getContextOk : SwsParams → Bool
  frameAllocOk : Bool
  imageAllocOk : Int → Int → AVPixelFormat → Bool
  scaleRet : SwsParams → List (List Nat) → Int
  scaled : SwsParams → List (List Nat) → List Nat × List Nat × List Nat

/-- `std::vector<uint8_t>::resize(n)`: keeps the first `n` bytes and
value-initializes any growth. -/
def vecResize (v : List Nat) (n : Nat) : List Nat :=
  v.take n ++ List.replicate (n - v.length) 0

/-- Sequential `std::copy` calls starting at `begin()`: overwrite a prefix
of the buffer. -/
def overwritePrefix (base chunk : List Nat) : List Nat :=
  chunk ++ base.drop chunk.length

/-- Result of `ImageUtils::ConvertFormat`: the returned `bool`, the
contents of `output_data` after the call, and the retained `impl_->ctx_`
(as the parameters it was built with). -/
structure ConvertResult where
  ok : Bool
  output : List Nat
  ctx : Option SwsParams
  deriving DecidableEq

/-- The copy-out of the destination planes into `output_data`
(`media_image_utils.cc:296-345`): the buffer is resized to
`width*height*3/2` and then overwritten from `begin()` with the Y plane
followed by the interleaved UV plane (NV12) or the U and V planes
(YUV420P). -/
def swsOutput (env : SwsEnv) (output input : List Nat)
    (width height : Int) (sf df : AVPixelFormat) : List Nat :=
  overwritePrefix
    (vecResize output ((width * height * 3 / 2).toNat))
    (if df = .nv12 then
       (env.scaled ⟨width, height, sf, width, height, df⟩
           (srcPlanes input width height sf)).1.take
         ((width * height).toNat) ++
       (env.scaled ⟨width, height, sf, width, height, df⟩
           (srcPlanes input width height sf)).2.1.take
         ((width * height).toNat / 2)
     else
       (env.scaled ⟨width, height, sf, width, height, df⟩
           (srcPlanes input width height sf)).1.take
         ((width * height).toNat) ++
       (env.scaled ⟨width, height, sf, width, height, df⟩
           (srcPlanes input width height sf)).2.1.take
         ((width * height).toNat / 4) ++
       (env.scaled ⟨width, height, sf, width, height, df⟩
           (srcPlanes input width height sf)).2.2.take
         ((width * height).toNat / 4))

/-- The conversion tail of `ImageUtils::ConvertFormat`
(`media_image_utils.cc:197-354`), entered only when the source and target
formats differ: obtain a (parameter-determined) scaling context — on
failure `impl_->ctx_` is left null — allocate frames and images, scale,
and copy the destination planes out.  This part never reads the previously
retained context beyond handing it to `sws_getCachedContext`. -/
def convertViaSws (env : SwsEnv) (input output : List Nat)
    (width height : Int) (sf df : AVPixelFormat) : ConvertResult :=
  if ¬ env.getContextOk ⟨width, height, sf, width, height, df⟩ then
    ⟨false, output, none⟩
  else if ¬ env.frameAllocOk then
    ⟨false, output, some ⟨width, height, sf, width, height, df⟩⟩
  else if ¬ env.imageAllocOk width height sf then
    ⟨false, output, some ⟨width, height, sf, width, height, df⟩⟩
  else if ¬ env.imageAllocOk width height df then
    ⟨false, output, some ⟨width, height, sf, width, height, df⟩⟩
  else if env.scaleRet ⟨width, height, sf, width, height, df⟩
      (srcPlanes input width height sf) ≤ 0 then
    ⟨false, output, some ⟨width, height, sf, width, height, df⟩⟩
  else if ¬ (df = .nv12 ∨ df = .yuv420p) then
    ⟨false, output, some ⟨width, height, sf, width, height, df⟩⟩
  else
    ⟨true, swsOutput env output input width height sf df,
     some ⟨width, height, sf, width, height, df⟩⟩

/-- `ImageUtils::ConvertFormat` (`media_image_utils.cc:131-354`),
transcribed branch by branch.  `ctx` is the retained scaling context
(`impl_->ctx_`); the constructor always leaves `initialized_` true, so
only the empty-input half of the first guard can fire. -/
def convertFormat (env : SwsEnv) (ctx : Option SwsParams)
    (input output : List Nat) (target : ImageFormat)
    (width height : Int) : ConvertResult :=
  if input = [] then ⟨false, output, ctx⟩
  else if detectFormat input width height = .unknown then ⟨false, output, ctx⟩
  else if (width ≤ 0 ∨ height ≤ 0) ∧
      ¬ detectDimensions input (detectFormat input width height) width height
    then ⟨false, output, ctx⟩
  else
    match srcPixFmt (detectFormat input width height), dstPixFmt target with
    | none, _ => ⟨false, output, ctx⟩
    | some _, none => ⟨false, output, ctx⟩
    | some sf, some df =>
      if detectFormat input width height = target then ⟨true, input, ctx⟩
      else convertViaSws env input output width height sf df

/-- `ImageUtils::ConvertToNV12` (`media_image_utils.cc:356-360`). -/
def convertToNV12 (env : SwsEnv) (ctx : Option SwsParams)
    (input output : List Nat) (width height : Int) : ConvertResult :=
  convertFormat env ctx input output .nv12 width height

/-- `ImageUtils::ConvertToYUV420` (`media_image_utils.cc:362-366`). -/
def convertToYUV420 (env : SwsEnv) (ctx : Option SwsParams)
    (input output : List Nat) (width height : Int) : ConvertResult :=
  convertFormat env ctx input output .yuv420p width height

/-! ## Synchronization inventory (whole repository) -/

/-- Every wrapper class defined in `src/` (one constructor per class;
`videoEncoderFacade` covers `VideoEncoder` and the anonymous-namespace
`*EncoderImpl` helpers in `media_video_encoder.cc`).
`nvidiaH264Encoder` is declared in `accelerated/nvidia_h264_encoder.h`. -/
inductive WrapperClass
  | videoEncoderFacade
  | h264Encoder
  | h264Decoder
  | hevcEncoder
  | hevcDecoder
  | vp8Encoder
  | vp8Decoder
  | vp9Encoder
  | vp9Decoder
  | av1Encoder
  | av1Decoder
  | opusEncoder
  | opusDecoder
  | nvidiaH264Encoder
  | nvidiaHEVCEncoder
  | nvidiaAV1Encoder
  | imageUtils
  deriving DecidableEq

/-- The operations of each wrapper class whose body acquires a lock or
uses another synchronization primitive, transcribed from an exhaustive
scan of `src/` for `std::mutex`, `std::lock_guard`, `std::unique_lock`,
`std::atomic`, `std::condition_variable`, `std::call_once`, semaphores and
pthread primitives: the single occurrence is the `static std::mutex
init_mutex` locked by `std::lock_guard` in `H264Decoder::Create`
(`h264_decoder.cc:293-307`) to guard one-time FFmpeg registration; every
other operation of every class uses none. -/
def lockAcquiringOps : WrapperClass → List String
  | .h264Decoder => ["Create"]
  | _ => []

/-! ## Facade wrapper behaviour with a null inner encoder
(`media_video_encoder.cc`) -/

/-- The virtual methods of the `VideoEncoder` interface besides
`GetConfig` (`media_video_encoder.h:216-228`). -/
inductive WrapperMethod
  | encodeYUV420
  | encodeNV12
  | flush
  | updateBitrate
  | updateFramerate
  deriving DecidableEq

/-- The `VideoEncoder` base-class default implementations
(`media_video_encoder.cc:23-45`): `EncodeNV12`, `UpdateBitrate` and
`UpdateFramerate` report "not supported" and return `false`; `Flush` has
nothing to flush and returns `true`.  `EncodeYUV420` is pure virtual
(every impl overrides it), recorded as `false`. -/
def baseMethodResult : WrapperMethod → Bool
  | .flush => true
  | _ => false

/-- Which impl class overrides which virtual method, read off the class
bodies in `media_video_encoder.cc` (H264: 75-91, HEVC: 146-168, VP8:
202-206, VP9: 253-267, AV1: 322-331, NVIDIA H264/HEVC/AV1: each override
`EncodeYUV420` and `EncodeNV12` only). -/
def overridesMethod : WrapperKind → WrapperMethod → Bool
  | .softH264, .encodeYUV420 => true
  | .softH264, .flush => true
  | .softH264, .updateBitrate => true
  | .softHEVC, .encodeYUV420 => true
  | .softHEVC, .flush => true
  | .softHEVC, .updateBitrate => true
  | .softHEVC, .updateFramerate => true
  | .softVP8, .encodeYUV420 => true
  | .softVP9, .encodeYUV420 => true
  | .softVP9, .updateBitrate => true
  | .softVP9, .updateFramerate => true
  | .softAV1, .encodeYUV420 => true
  | .softAV1, .flush => true
  | .nvidiaH264, .encodeYUV420 => true
  | .nvidiaH264, .encodeNV12 => true
  | .nvidiaHEVC, .encodeYUV420 => true
  | .nvidiaHEVC, .encodeNV12 => true
  | .nvidiaAV1, .encodeYUV420 => true
  | .nvidiaAV1, .encodeNV12 => true
  | _, _ => false

/-- What a wrapper method returns when the inner `encoder_` is null:
every override opens with `if (!encoder_) return false;` (the HEVC
`UpdateBitrate`/`UpdateFramerate` delegate to `UpdateParams`, which
performs the same check), and a non-overridden method falls back to the
base-class default. -/
def nullInnerMethodResult (k : WrapperKind) (m : WrapperMethod) : Bool :=
  if overridesMethod k m then false else baseMethodResult m

/-- The observable result of `VideoEncoder::Create`
(`media_video_encoder.cc:477-519`): for the five `CodecType` values it
always wraps the chosen impl class in a `unique_ptr` — the impl
constructor stores the facade config in `config_` and keeps the possibly
null result of the codec-specific `Create` in `encoder_`. -/
structure FacadeWrapper where
  kind : WrapperKind
  config : VideoEncoderConfig
  innerCreated : Bool

/-- `VideoEncoder::Create` composed with the impl constructors:
`innerOk` records whether the codec-specific `Create` returned non-null. -/
def videoEncoderCreate (config : VideoEncoderConfig) (innerOk : Bool) :
    FacadeWrapper :=
  { kind := videoEncoderDispatch config, config := config,
    innerCreated := innerOk }

/-- Every impl class's `GetConfig` returns the stored `config_`
(`media_video_encoder.cc`, each `GetConfig() const { return config_; }`). -/
def wrapperGetConfig (w : FacadeWrapper) : VideoEncoderConfig :=
  w.config

end Media

namespace Media

/-- C1: `VideoEncoder::Create` selects the wrapper solely from
`output_codec` and `gpu_acceleration`, per the dispatch table: with GPU,
H264/HEVC/AV1 map to the NVIDIA wrappers and VP8/VP9 fall back to their
software wrappers; without GPU every codec maps to its software wrapper. -/
theorem create_dispatch_table (config : VideoEncoderConfig) :
    videoEncoderDispatch config =
      (match config.gpu_acceleration, config.output_codec with
       | true, .h264 => .nvidiaH264
       | true, .hevc => .nvidiaHEVC
       | true, .av1 => .nvidiaAV1
       | true, .vp8 => .softVP8
       | true, .vp9 => .softVP9
       | false, .h264 => .softH264
       | false, .hevc => .softHEVC
       | false, .vp8 => .softVP8
       | false, .vp9 => .softVP9
       | false, .av1 => .softAV1) := by
  rcases config with ⟨gpu, fmt, codec, w, h, b, f, p⟩
  cases gpu <;> cases codec <;> rfl

/-- A facade config carrying default `codec::H264Params`. -/
def exampleH264Cfg : VideoEncoderConfig :=
  { codec_params := some (.h264 {}) }

/-- A facade config with a null `codec_params`. -/
def exampleDefaultCfg : VideoEncoderConfig := {}

/-- C2: when `codec_params` has dynamic type `codec::H264Params`, the
`H264EncoderImpl` constructor copies width/height/bitrate/framerate from
the facade config and the eight advanced fields from the params (with
`gop_size` taken from `keyframe_interval`); otherwise only the four basic
fields are copied and every advanced field keeps its header default. -/
theorem h264Impl_config_marshaling (config : VideoEncoderConfig) :
    (∀ p : H264Params, config.codec_params = some (.h264 p) →
      mkH264EncoderConfig config =
        { width := config.width, height := config.height,
          bitrate := config.bitrate, framerate := config.framerate,
          preset := p.preset, profile := p.profile, level := p.level,
          gop_size := p.keyframe_interval, max_b_frames := p.max_b_frames,
          constant_bitrate := p.constant_bitrate, crf := p.crf,
          threads := p.threads }) ∧
    ((∀ p : H264Params, config.codec_params ≠ some (.h264 p)) →
      mkH264EncoderConfig config =
        { width := config.width, height := config.height,
          bitrate := config.bitrate, framerate := config.framerate }) := by
  constructor
  · intro p hp
    simp [mkH264EncoderConfig, hp]
  · intro h
    rcases hcp : config.codec_params with _ | cp
    · simp [mkH264EncoderConfig, hcp]
    · cases cp with
      | h264 p => exact absurd hcp (h p)
      | hevc p => simp [mkH264EncoderConfig, hcp]
      | vp8 p => simp [mkH264EncoderConfig, hcp]
      | vp9 p => simp [mkH264EncoderConfig, hcp]
      | av1 p => simp [mkH264EncoderConfig, hcp]

/-- Witness for C2 at concrete configs: default `H264Params` are marshaled
into the encoder config, and a null `codec_params` leaves the advanced
defaults in place. -/
theorem h264Impl_config_marshaling_witness :
    mkH264EncoderConfig exampleH264Cfg =
      { width := 1920, height := 1080, bitrate := 5000000, framerate := 30,
        preset := "medium", profile := "high", level := "4.1",
        gop_size := 120, max_b_frames := 2, constant_bitrate := false,
        crf := 23, threads := 0 } ∧
    mkH264EncoderConfig exampleDefaultCfg =
      { width := 1920, height := 1080, bitrate := 5000000,
        framerate := 30 } :=
  ⟨(h264Impl_config_marshaling exampleH264Cfg).1 {} rfl,
   (h264Impl_config_marshaling exampleDefaultCfg).2 (fun _ h => nomatch h)⟩

/-- `foldl (· ++ ·)` starting from an accumulator is append of the
flattened list: the shape of the packet-append loop in `EncodeFrame`. -/
theorem foldl_append_eq_append_join (l : List (List Nat)) (acc : List Nat) :
    l.foldl (· ++ ·) acc = acc ++ l.flatten := by
  induction l generalizing acc with
  | nil => simp
  | cons a t ih => simp [ih, List.append_assoc]

/-- On a successful `EncodeFrame`, the output is exactly the concatenation
of the packets the library returned. -/
theorem h264EncodeFrame_success (env : H264CallEnv) (prevOut : List Nat) :
    (h264EncodeFrame env prevOut).1 = true →
    (h264EncodeFrame env prevOut).2 = env.packets.flatten := by
  unfold h264EncodeFrame
  split
  · intro h; exact absurd h (by simp)
  · cases henv : env.recvEnd <;>
      simp [henv, foldl_append_eq_append_join]

/-- Any successful `h264EncodeBody` call ends with the packet
concatenation in the output vector. -/
theorem h264EncodeBody_success (env : H264CallEnv) (st : H264EncoderState)
    (yuv : List Nat) (given : Bool) (prevOut : List Nat) :
    (h264EncodeBody env st yuv given prevOut).ok = true →
    (h264EncodeBody env st yuv given prevOut).output =
      env.packets.flatten := by
  unfold h264EncodeBody
  split_ifs with h1 h2 h3 <;>
    first
      | exact fun h => h264EncodeFrame_success env prevOut h
      | simp

/-- C3: every successful `EncodeYUV420` or `Flush` call on the software
H.264 encoder leaves `*output_frame` holding exactly the concatenation, in
order, of the packets the wrapped library returned during that call
(whatever bytes the vector held before are discarded by the initial
`clear()`). -/
theorem h264_success_output_is_packet_concat (env : H264CallEnv)
    (st : H264EncoderState) (yuv : List Nat) (given : Bool)
    (prevOut : List Nat) :
    ((h264EncodeYUV420 env st yuv given prevOut).ok = true →
      (h264EncodeYUV420 env st yuv given prevOut).output =
        env.packets.flatten) ∧
    ((h264Flush env st prevOut).ok = true →
      (h264Flush env st prevOut).output = env.packets.flatten) := by
  constructor
  · unfold h264EncodeYUV420
    split_ifs with h1 h2 <;>
      first
        | exact h264EncodeBody_success env _ yuv given prevOut
        | simp
  · unfold h264Flush
    split_ifs with h1 <;>
      first
        | exact fun h => h264EncodeFrame_success env prevOut h
        | simp

/-- A concrete library session: everything succeeds and two packets with
bytes `[1,2]` and `[3]` come back, the loop ending with `EAGAIN`. -/
def exampleEnv : H264CallEnv :=
  { initOk := true, writableRet := 0, sendRet := 0,
    packets := [[1, 2], [3]], recvEnd := .again }

/-- A concrete initialized 4x4 software H.264 encoder state. -/
def exampleEncState : H264EncoderState :=
  { config := { width := 4, height := 4 }, initialized := true,
    frame_count := 5 }

/-- Witness for C3: with the concrete session of `exampleEnv`, the output
vector after a successful call is `[1,2] ++ [3]`, the prior contents `[7]`
having been cleared. -/
theorem h264_success_output_is_packet_concat_witness :
    (h264EncodeYUV420 exampleEnv exampleEncState (List.replicate 24 0) true
        [7]).output = [1, 2, 3] :=
  (h264_success_output_is_packet_concat exampleEnv exampleEncState
      (List.replicate 24 0) true [7]).1 rfl

/-- C9: on an initialized software H.264 encoder, a null output pointer or
an input whose size differs from `width*height*3/2` makes `EncodeYUV420`
return `false` with the encoder state (including `frame_count_`, hence the
pts of later frames) unchanged and no frame sent to the library; and a
frame is sent only when the output pointer is non-null and the input size
is exactly `width*height*3/2`. -/
theorem h264_encode_input_validation (env : H264CallEnv)
    (st : H264EncoderState) (yuv : List Nat) (given : Bool)
    (prevOut : List Nat) (hinit : st.initialized = true) :
    ((given = false ∨ yuv.length ≠ expectedYUVSize st.config) →
      (h264EncodeYUV420 env st yuv given prevOut).ok = false ∧
      (h264EncodeYUV420 env st yuv given prevOut).state = st ∧
      (h264EncodeYUV420 env st yuv given prevOut).sentFrame = false) ∧
    ((h264EncodeYUV420 env st yuv given prevOut).sentFrame = true →
      given = true ∧ yuv.length = expectedYUVSize st.config) := by
  have hyu : h264EncodeYUV420 env st yuv given prevOut =
      h264EncodeBody env st yuv given prevOut := by
    unfold h264EncodeYUV420
    simp [hinit]
  rw [hyu]
  unfold h264EncodeBody
  split_ifs with h1 h2 h3 <;>
    constructor <;> intro h <;> simp_all

/-- Witness for C9: calling the concrete initialized encoder with a
wrong-sized input returns `false`, leaves the state untouched and sends
nothing. -/
theorem h264_encode_input_validation_witness :
    (h264EncodeYUV420 exampleEnv exampleEncState [0, 1] true []).ok =
        false ∧
    (h264EncodeYUV420 exampleEnv exampleEncState [0, 1] true []).state =
        exampleEncState ∧
    (h264EncodeYUV420 exampleEnv exampleEncState [0, 1] true
        []).sentFrame = false :=
  (h264_encode_input_validation exampleEnv exampleEncState [0, 1] true []
      rfl).1 (Or.inr (by decide))

/-- Indexing into `take n` of `drop a` reads the underlying list at
`a + i` (with the same default when out of range). -/
theorem getD_drop_take (l : List Nat) (a n i : Nat) (hi : i < n) :
    ((l.drop a).take n).getD i 0 = l.getD (a + i) 0 := by
  simp [List.getD_eq_getElem?_getD, List.getElem?_take, hi,
    List.getElem?_drop]

/-- Even positions of the interleaved UV plane read the U list. -/
theorem interleaveUV_getD_even (u v : List Nat) (hlen : u.length = v.length)
    (i : Nat) (hi : i < u.length) :
    (interleaveUV u v).getD (2 * i) 0 = u.getD i 0 := by
  induction u generalizing v i with
  | nil => simp at hi
  | cons a us ih =>
    cases v with
    | nil => simp at hlen
    | cons b vs =>
      cases i with
      | zero => simp [interleaveUV]
      | succ j =>
        have h2 : 2 * (j + 1) = 2 * j + 1 + 1 := by omega
        simp only [interleaveUV, h2, List.getD_cons_succ]
        exact ih vs (by simpa using hlen) j (by simpa using hi)

/-- Odd positions of the interleaved UV plane read the V list. -/
theorem interleaveUV_getD_odd (u v : List Nat) (hlen : u.length = v.length)
    (i : Nat) (hi : i < v.length) :
    (interleaveUV u v).getD (2 * i + 1) 0 = v.getD i 0 := by
  induction u generalizing v i with
  | nil => rw [← hlen] at hi; simp at hi
  | cons a us ih =>
    cases v with
    | nil => simp at hi
    | cons b vs =>
      cases i with
      | zero => simp [interleaveUV]
      | succ j =>
        have h2 : 2 * (j + 1) + 1 = 2 * j + 1 + 1 + 1 := by omega
        simp only [interleaveUV, h2, List.getD_cons_succ]
        exact ih vs (by simpa using hlen) j (by simpa using hi)

/-- Interleaving equal-length lists is a permutation of their
concatenation: every chroma sample appears exactly once. -/
theorem interleaveUV_perm (u v : List Nat) (hlen : u.length = v.length) :
    (interleaveUV u v).Perm (u ++ v) := by
  induction u generalizing v with
  | nil =>
    cases v with
    | nil => simp [interleaveUV]
    | cons b vs => simp at hlen
  | cons a us ih =>
    cases v with
    | nil => simp at hlen
    | cons b vs =>
      have step : (interleaveUV (a :: us) (b :: vs)) =
          a :: b :: interleaveUV us vs := rfl
      rw [step]
      refine List.Perm.trans
        (List.Perm.cons a (List.Perm.cons b (ih vs (by simpa using hlen))))
        ?_
      simpa using List.Perm.cons a List.perm_middle.symm

/-- If `EncodeYUV420` reached `avcodec_send_frame`, the frame submitted is
`nvidiaHEVCFillFrame st yuv false` and the input passed the size guard. -/
theorem nvidiaHEVCEncodeYUV420_submitted (env : NvCallEnv)
    (st : NvidiaHEVCEncoderState) (yuv : List Nat) (f : SubmittedFrame)
    (hsub : (nvidiaHEVCEncodeYUV420 env st yuv).submitted = some f) :
    f = nvidiaHEVCFillFrame st yuv false ∧
    st.frame_size.toNat ≤ yuv.length := by
  unfold nvidiaHEVCEncodeYUV420 at hsub
  by_cases hg : ¬ st.initialized ∨ yuv.length < st.frame_size.toNat
  · rw [if_pos hg] at hsub
    simp at hsub
  · rw [if_neg hg] at hsub
    push_neg at hg
    refine ⟨?_, hg.2⟩
    unfold nvidiaHEVCEncodeFrame at hsub
    by_cases hw : env.writableRet < 0
    · rw [if_pos hw] at hsub
      simp at hsub
    · rw [if_neg hw] at hsub
      by_cases hs : env.sendRet < 0
      · rw [if_pos hs] at hsub
        simpa using hsub.symm
      · rw [if_neg hs] at hsub
        cases hr : env.recv <;> rw [hr] at hsub <;> simpa using hsub.symm

/-- C4: when the NVIDIA HEVC wrapper encodes a planar YUV420 input of
width `w` and height `h` and the codec context's pixel format is NV12, the
submitted frame's Y plane is the first `w*h` input bytes and its UV plane
interleaves the U plane (input bytes `[w*h, w*h + w*h/4)`) with the V
plane (the following `w*h/4` bytes): `UV[2i] = U[i]`, `UV[2i+1] = V[i]`
for every `i < w*h/4`, and the UV plane is a permutation of the two chroma
planes, so every chroma sample appears exactly once. -/
theorem nvidia_hevc_yuv420_nv12_interleave (env : NvCallEnv)
    (st : NvidiaHEVCEncoderState) (yuv : List Nat) (w h : Nat)
    (hy : st.y_plane_size = (w * h : Nat))
    (hfs : st.frame_size = ((w * h * 3 / 2 : Nat) : Int))
    (hfmt : st.pixFmt = .nv12) (f : SubmittedFrame)
    (hsub : (nvidiaHEVCEncodeYUV420 env st yuv).submitted = some f) :
    f.plane0 = yuv.take (w * h) ∧
    (∀ i, i < w * h / 4 →
      f.plane1.getD (2 * i) 0 = yuv.getD (w * h + i) 0 ∧
      f.plane1.getD (2 * i + 1) 0 = yuv.getD (w * h + w * h / 4 + i) 0) ∧
    f.plane1.Perm ((yuv.drop (w * h)).take (w * h / 4) ++
      (yuv.drop (w * h + w * h / 4)).take (w * h / 4)) := by
  obtain ⟨hf, hlen⟩ := nvidiaHEVCEncodeYUV420_submitted env st yuv f hsub
  rw [hfs] at hlen
  simp only [Int.toNat_natCast] at hlen
  subst hf
  unfold nvidiaHEVCFillFrame
  rw [hy]
  simp only [Int.toNat_natCast]
  rw [if_neg (show ¬(false = true) by decide), if_pos hfmt]
  dsimp only
  set n := w * h with hn
  set u := (yuv.drop n).take (n / 4) with hu
  set v := (yuv.drop (n + n / 4)).take (n / 4) with hv
  have hul : u.length = n / 4 := by
    rw [hu]
    simp only [List.length_take, List.length_drop]
    omega
  have hvl : v.length = n / 4 := by
    rw [hv]
    simp only [List.length_take, List.length_drop]
    omega
  refine ⟨rfl, fun i hi => ?_, ?_⟩
  · constructor
    · rw [interleaveUV_getD_even u v (by rw [hul, hvl]) i (by omega),
        hu, getD_drop_take yuv n (n / 4) i hi]
    · rw [interleaveUV_getD_odd u v (by rw [hul, hvl]) i (by omega),
        hv, getD_drop_take yuv (n + n / 4) (n / 4) i hi]
  · exact interleaveUV_perm u v (by rw [hul, hvl])

/-- A concrete 2x2 initialized NVIDIA HEVC encoder whose codec context is
in NV12 mode. -/
def nvExampleState : NvidiaHEVCEncoderState :=
  { width := 2, height := 2, y_plane_size := 4, frame_size := 6, pts := 0,
    initialized := true, pixFmt := .nv12 }

/-- A concrete library session for the NVIDIA HEVC encoder: everything
succeeds and the receive reports `EAGAIN`. -/
def nvExampleEnv : NvCallEnv :=
  { writableRet := 0, sendRet := 0, recv := .again }

/-- A concrete 2x2 YUV420 frame: Y = `[10,11,12,13]`, U = `[20]`,
V = `[30]`. -/
def nvExampleYUV : List Nat := [10, 11, 12, 13, 20, 30]

/-- The frame the model submits for `nvExampleYUV`. -/
def nvExampleFrame : SubmittedFrame :=
  { plane0 := [10, 11, 12, 13], plane1 := [20, 30], plane2 := [],
    pts := 0 }

/-- Witness for C4 at the concrete 2x2 frame: Y plane `[10,11,12,13]`, UV
plane `[20,30]` interleaving U = `[20]` and V = `[30]`. -/
theorem nvidia_hevc_yuv420_nv12_interleave_witness :
    nvExampleFrame.plane0 = nvExampleYUV.take (2 * 2) ∧
    (∀ i, i < 2 * 2 / 4 →
      nvExampleFrame.plane1.getD (2 * i) 0 =
        nvExampleYUV.getD (2 * 2 + i) 0 ∧
      nvExampleFrame.plane1.getD (2 * i + 1) 0 =
        nvExampleYUV.getD (2 * 2 + 2 * 2 / 4 + i) 0) ∧
    nvExampleFrame.plane1.Perm
      ((nvExampleYUV.drop (2 * 2)).take (2 * 2 / 4) ++
        (nvExampleYUV.drop (2 * 2 + 2 * 2 / 4)).take (2 * 2 / 4)) :=
  nvidia_hevc_yuv420_nv12_interleave nvExampleEnv nvExampleState
    nvExampleYUV 2 2 rfl rfl rfl nvExampleFrame rfl

/-- C5: `InitializeResampler` configures the resampler with both channel
layouts derived from `config.channels` and both sample rates equal to
`config.sample_rate`, converting only the sample format (input as
requested, output `AV_SAMPLE_FMT_FLT`); when `swr_init` fails it returns
`false` leaving the encoder with no resampler context; and a repeated call
with the same input format as the last successful setup returns `true`
with the state untouched, performing no reinitialization. -/
theorem opus_initialize_resampler_spec (env : SwrEnv) (st : OpusEncState)
    (fmt : AVSampleFormat) :
    ((opusSwrParams st.config fmt).in_ch_layout_channels =
        st.config.channels ∧
      (opusSwrParams st.config fmt).out_ch_layout_channels =
        st.config.channels ∧
      (opusSwrParams st.config fmt).in_sample_rate = st.config.sample_rate ∧
      (opusSwrParams st.config fmt).out_sample_rate =
        st.config.sample_rate ∧
      (opusSwrParams st.config fmt).in_sample_fmt = fmt ∧
      (opusSwrParams st.config fmt).out_sample_fmt = .flt) ∧
    (¬ (st.swr_ctx.isSome ∧ st.last_input_format = fmt) →
      env.allocOk = true →
      env.initOk (opusSwrParams st.config fmt) = false →
      initializeResampler env st fmt = (false, { st with swr_ctx := none })) ∧
    (∀ p, st.swr_ctx = some p → st.last_input_format = fmt →
      initializeResampler env st fmt = (true, st)) := by
  refine ⟨⟨rfl, rfl, rfl, rfl, rfl, rfl⟩, ?_, ?_⟩
  · intro hguard halloc hinit
    unfold initializeResampler
    rw [if_neg hguard, if_neg (by simp [halloc]), if_neg (by simp [hinit])]
  · intro p hp hfmt
    unfold initializeResampler
    rw [if_pos ⟨by simp [hp], hfmt⟩]

/-- A concrete Opus encoder state with no resampler yet. -/
def opusExampleState : OpusEncState :=
  { config := {}, swr_ctx := none, last_input_format := .fmtNone }

/-- A concrete resampler oracle in which allocation succeeds and
`swr_init` always fails. -/
def opusFailEnv : SwrEnv :=
  { allocOk := true, initOk := fun _ => false }

/-- The state after a successful s16 setup on `opusExampleState`. -/
def opusReadyState : OpusEncState :=
  { config := {}, swr_ctx := some (opusSwrParams {} .s16),
    last_input_format := .s16 }

/-- Witness for C5 at concrete states: a failing `swr_init` leaves no
resampler context, and a repeated call with the format of the last
successful setup returns `true` without touching the state. -/
theorem opus_initialize_resampler_spec_witness :
    initializeResampler opusFailEnv opusExampleState .s16 =
      (false, { opusExampleState with swr_ctx := none }) ∧
    initializeResampler opusFailEnv opusReadyState .s16 =
      (true, opusReadyState) :=
  ⟨(opus_initialize_resampler_spec opusFailEnv opusExampleState .s16).2.1
      (by simp [opusExampleState]) rfl rfl,
   (opus_initialize_resampler_spec opusFailEnv opusReadyState .s16).2.2
      (opusSwrParams {} .s16) rfl rfl⟩

/-- C7: the scaling context `ImageUtils` retains between calls is not
observable at the interface: for a fixed argument tuple and a fixed
(deterministic) wrapped library, `ConvertFormat` returns the same boolean
and leaves the same bytes in `output_data` whatever context an earlier
call left behind, because `sws_getCachedContext` always hands back a
context configured with exactly the requested parameters. -/
theorem convert_format_no_observable_caching (env : SwsEnv)
    (input output : List Nat) (target : ImageFormat) (width height : Int)
    (ctx1 ctx2 : Option SwsParams) :
    (convertFormat env ctx1 input output target width height).ok =
      (convertFormat env ctx2 input output target width height).ok ∧
    (convertFormat env ctx1 input output target width height).output =
      (convertFormat env ctx2 input output target width height).output := by
  unfold convertFormat
  generalize srcPixFmt (detectFormat input width height) = sfo
  generalize dstPixFmt target = dfo
  cases sfo <;> cases dfo <;> split_ifs <;> exact ⟨rfl, rfl⟩

/-- A planar detection result forces the size-based branch of
`DetectFormat`, hence positive dimensions and non-empty data. -/
theorem detectFormat_planar_dims (input : List Nat) (w h : Int)
    (target : ImageFormat) (hdet : detectFormat input w h = target)
    (ht : target = .nv12 ∨ target = .yuv420p) :
    0 < w ∧ 0 < h ∧ input ≠ [] := by
  unfold detectFormat at hdet
  split_ifs at hdet with h1 h2 h3 h4 h5 h6 h7 h8 <;>
    first
      | exact ⟨h4.1, h4.2, h1⟩
      | (rcases ht with ht | ht <;> subst ht <;> simp_all)

/-- C10 (amended): whenever `DetectFormat` on the input (with the given
dimensions) returns exactly the requested target format **and that target
is NV12 or YUV420P**, `ConvertFormat` — and hence `ConvertToNV12` /
`ConvertToYUV420` — returns `true` with `output_data` a byte-for-byte copy
of the input and the retained context untouched.  For any other target
format (RGB, RGBA, BGRA) the target `switch` rejects the request even when
the detected source format equals it. -/
theorem convert_same_detected_format (env : SwsEnv)
    (ctx : Option SwsParams) (input output : List Nat)
    (target : ImageFormat) (w h : Int)
    (hdet : detectFormat input w h = target)
    (ht : target = .nv12 ∨ target = .yuv420p) :
    convertFormat env ctx input output target w h = ⟨true, input, ctx⟩ ∧
    (target = .nv12 →
      convertToNV12 env ctx input output w h = ⟨true, input, ctx⟩) ∧
    (target = .yuv420p →
      convertToYUV420 env ctx input output w h = ⟨true, input, ctx⟩) := by
  obtain ⟨hw, hh, hne⟩ := detectFormat_planar_dims input w h target hdet ht
  rcases ht with ht | ht <;> subst ht
  · have main : convertFormat env ctx input output .nv12 w h =
        ⟨true, input, ctx⟩ := by
      unfold convertFormat
      rw [if_neg hne, if_neg (by rw [hdet]; exact fun habs => nomatch habs),
        if_neg (by rintro ⟨hc, -⟩; rcases hc with hc | hc <;> omega),
        hdet]
      simp only [srcPixFmt, dstPixFmt]
      simp
    exact ⟨main, fun _ => main, fun habs => absurd habs (by decide)⟩
  · have main : convertFormat env ctx input output .yuv420p w h =
        ⟨true, input, ctx⟩ := by
      unfold convertFormat
      rw [if_neg hne, if_neg (by rw [hdet]; exact fun habs => nomatch habs),
        if_neg (by rintro ⟨hc, -⟩; rcases hc with hc | hc <;> omega),
        hdet]
      simp only [srcPixFmt, dstPixFmt]
      simp
    exact ⟨main, fun habs => absurd habs (by decide), fun _ => main⟩

/-- A deterministic library oracle for `ConvertFormat` in which every
wrapped call succeeds and scaling yields empty planes. -/
def swsExampleEnv : SwsEnv :=
  { getContextOk := fun _ => true
    frameAllocOk := true
    imageAllocOk := fun _ _ _ => true
    scaleRet := fun _ _ => 1
    scaled := fun _ _ => ([], [], []) }

/-- Eight bytes starting with the JPEG signature `FF D8`. -/
def jpegHeaderBytes : List Nat := [0xFF, 0xD8, 0, 0, 0, 0, 0, 0]

/-- A 6-byte buffer that `DetectFormat` classifies as NV12 for a 2x2
frame (size `2*2*3/2`, chroma heuristic defaulting to interleaved). -/
def nv12ExampleBytes : List Nat := [1, 2, 3, 4, 5, 6]

/-- Counterexample to C10 as stated: for the JPEG-signature input with
dimensions 2x2 and target RGB, `DetectFormat` returns exactly the target
(RGB), yet `ConvertFormat` returns `false` (the target `switch` supports
only NV12 and YUV420P) instead of copying the input. -/
theorem convert_same_detected_format_rgb_fails :
    detectFormat jpegHeaderBytes 2 2 = .rgb ∧
    (convertFormat swsExampleEnv none jpegHeaderBytes [] .rgb 2 2).ok =
      false := by
  constructor <;> rfl

/-- Witness for amended C10: the 2x2 NV12-detected buffer is copied
verbatim with the context untouched, both through `ConvertFormat` and
through `ConvertToNV12`. -/
theorem convert_same_detected_format_witness :
    convertFormat swsExampleEnv none nv12ExampleBytes [9] .nv12 2 2 =
      ⟨true, nv12ExampleBytes, none⟩ ∧
    convertToNV12 swsExampleEnv none nv12ExampleBytes [9] 2 2 =
      ⟨true, nv12ExampleBytes, none⟩ :=
  ⟨(convert_same_detected_format swsExampleEnv none nv12ExampleBytes [9]
      .nv12 2 2 rfl (Or.inl rfl)).1,
   (convert_same_detected_format swsExampleEnv none nv12ExampleBytes [9]
      .nv12 2 2 rfl (Or.inl rfl)).2.1 rfl⟩

/-- Counterexample to C6 as stated: it is not the case that no operation
of any wrapper class acquires a lock — `H264Decoder::Create` locks a
static `std::mutex` (`h264_decoder.cc:296-299`) around the one-time FFmpeg
registration. -/
theorem no_lock_anywhere_false :
    ¬ (∀ c : WrapperClass, lockAcquiringOps c = []) := by
  intro hall
  have := hall .h264Decoder
  simp [lockAcquiringOps] at this

/-- C6 (amended): the only synchronization in the repository is the
static-mutex guard in `H264Decoder::Create`; no other operation of any
wrapper class acquires a lock or uses another synchronization
primitive. -/
theorem lock_inventory (c : WrapperClass) :
    lockAcquiringOps c = [] ∨
      (c = .h264Decoder ∧ lockAcquiringOps c = ["Create"]) := by
  cases c <;> simp [lockAcquiringOps]

/-- A facade config requesting the software VP8 encoder. -/
def vp8Cfg : VideoEncoderConfig := { output_codec := .vp8 }

/-- Counterexample to C8 as stated: on a VP8 wrapper whose inner
`VP8Encoder::Create` returned null, `Flush` returns `true` (the base
class's "nothing to flush" default — `VP8EncoderImpl` does not override
`Flush`), not `false` as the claim requires of every listed method. -/
theorem null_inner_flush_not_always_false :
    (videoEncoderCreate vp8Cfg false).innerCreated = false ∧
    nullInnerMethodResult (videoEncoderCreate vp8Cfg false).kind .flush =
      true :=
  ⟨rfl, rfl⟩

/-- C8 (amended): for every config, `VideoEncoder::Create` returns a
non-null wrapper even when the codec-specific `Create` returned null;
on such a wrapper `EncodeYUV420`, `EncodeNV12`, `UpdateBitrate` and
`UpdateFramerate` return `false`, `GetConfig` still returns the creation
config, and `Flush` returns `false` exactly on the software H264, HEVC
and AV1 wrappers (which override it) and `true` on the VP8, VP9 and
NVIDIA wrappers (base-class no-op flush). -/
theorem null_inner_wrapper_behaviour (config : VideoEncoderConfig) :
    wrapperGetConfig (videoEncoderCreate config false) = config ∧
    (videoEncoderCreate config false).innerCreated = false ∧
    nullInnerMethodResult (videoEncoderDispatch config) .encodeYUV420 =
      false ∧
    nullInnerMethodResult (videoEncoderDispatch config) .encodeNV12 =
      false ∧
    nullInnerMethodResult (videoEncoderDispatch config) .updateBitrate =
      false ∧
    nullInnerMethodResult (videoEncoderDispatch config) .updateFramerate =
      false ∧
    nullInnerMethodResult (videoEncoderDispatch config) .flush =
      (match videoEncoderDispatch config with
       | .softH264 => false
       | .softHEVC => false
       | .softAV1 => false
       | _ => true) := by
  refine ⟨rfl, rfl, ?_, ?_, ?_, ?_, ?_⟩ <;>
    (rcases config with ⟨gpu, fmt, codec, w, h, b, f, p⟩
     cases gpu <;> cases codec <;> rfl)

end Media
